import Mathlib

/-!
Shallow embedding of the seen/new listing reconciliation and notification
batching core of Home-Hunter (src/main.py, class AbstractHunter):
the seen-listing store (load_seen_listings / save_seen_listings), the diff
loop of process_listings, the batcher (announce_new_listings /
format_listing_message / send_summary_notification), and the sender
(send_notification).  Python dicts are modelled extensionally as functions
from keys to optional values; raised exceptions are modelled with Except.
-/

namespace HomeHunter

/-- One scraped listing: a Python dict of optional string fields.  `none`
models an absent key or a Python `None` value.  Identity is the `url`
field.  `building_coverage` and `floor_area` model the source dict keys
`building_coverage_ratio` and `floor_area_ratio`. -/
structure ListingRecord where
  url : Option String := none
  price : Option String := none
  name : Option String := none
  size : Option String := none
  price_per_tsubo : Option String := none
  building_coverage : Option String := none
  floor_area : Option String := none
  features : Option String := none
  transportation : Option String := none
  image_url : Option String := none
deriving DecidableEq

/-- A Python dict mapping identifying URL to a ListingRecord, modelled
extensionally (insertion order is irrelevant to every claim here). -/
abbrev Store := String → Option ListingRecord

def Store.empty : Store := fun _ => none

/-- Dict item assignment `d[k] = v`. -/
def Store.insert (s : Store) (k : String) (v : ListingRecord) : Store :=
  fun q => if q = k then some v else s q

/-- Python membership test `k in d`. -/
def Store.contains (s : Store) (k : String) : Bool :=
  (s k).isSome

/-- Keyed union with the RIGHT operand taking precedence on conflict,
the Python dict merge expression with a on the left and b on the right. -/
def Store.union (a b : Store) : Store :=
  fun q =>
    match b q with
    | some v => some v
    | none => a q

/-- State of the seen_listings.json file on disk. -/
inductive FileContent where
  | missing
  | corrupt
  | valid (entries : Store)

/-- The shared read pattern of load_seen_listings and save_seen_listings:
open + json.load with `except FileNotFoundError` and
`except json.JSONDecodeError` both falling back to an empty dict. -/
def read_store_file : FileContent → Store
  | .missing => Store.empty
  | .corrupt => Store.empty
  | .valid entries => entries

/-- AbstractHunter.load_seen_listings.  It first calls
ensure_storage_directory_exists (directly and again through the
seen_listings_file property), which RAISES PermissionError when the
storage directory is not writable; the Except.error branch models that
raise.  The Bool result records whether a JSON decode error was logged.
The missing-file and corrupt-file cases return an empty store without
raising. -/
def load_seen_listings (dir_writable : Bool) (file : FileContent) :
    Except String (Store × Bool) :=
  if dir_writable = false then .error "PermissionError"
  else
    match file with
    | .missing => .ok (Store.empty, false)
    | .corrupt => .ok (Store.empty, true)
    | .valid entries => .ok (entries, false)

/-- AbstractHunter.save_seen_listings: re-reads the current on-disk state
(with empty-dict fallbacks for a missing or corrupt file), computes the
dict union with the in-memory staged entries taking precedence, and
writes the union back as the new file content.  The outer IOError /
Exception handlers only log, so the operation is modelled as total. -/
def save_seen_listings (file : FileContent) (staged : Store) : FileContent :=
  .valid (Store.union (read_store_file file) staged)

/-- Python str() rendering of an optional value inside an f-string:
None prints as the four-letter text "None". -/
def pyStr : Option String → String
  | none => "None"
  | some s => s

/-- The description f-string built in format_listing_message, including
its literal leading/trailing whitespace from the triple-quoted string. -/
def listing_description (l : ListingRecord) : String :=
  "\n            **Size:** " ++ pyStr l.size ++
  "\n**Price per tsubo:** " ++ pyStr l.price_per_tsubo ++
  "\n**Building coverage ratio:** " ++ pyStr l.building_coverage ++
  "\n**Floor area ratio:** " ++ pyStr l.floor_area ++
  "\n**Features:** " ++ pyStr l.features ++ " \n            "

structure EmbedField where
  name : String
  value : String
  inline : Bool
deriving DecidableEq

structure EmbedAuthor where
  name : String
  url : Option String
  icon_url : String
deriving DecidableEq

/-- One rich-embed block of a notification payload. -/
structure Embed where
  title : Option String
  description : String
  url : Option String
  color : Nat
  fields : List EmbedField
  author : EmbedAuthor
  image_url : Option String
deriving DecidableEq

/-- An outbound webhook payload: a content line plus embed blocks.  The
embeds are Option Embed because the Python function building an embed is
declared to return None on KeyError and callers do not filter. -/
structure Payload where
  content : String
  embeds : List (Option Embed)
deriving DecidableEq

/-- AbstractHunter.format_listing_message.  Every field access in the
source uses dict.get, which never raises, so the `except KeyError`
branch that would return None is unreachable and the result is always
`some` embed.  Only the Access field substitutes the "Not Available"
placeholder (dict.get with a default); every other absent field flows
through as None (rendered "None" inside the description f-string, or a
null title / url / image). -/
def format_listing_message (l : ListingRecord) : Option Embed :=
  some
    { title := l.price
      description := listing_description l
      url := l.url
      color := 4937567
      fields :=
        [{ name := "Access"
           value := l.transportation.getD "Not Available"
           inline := true }]
      author :=
        { name := "SUUMO"
          url := l.url
          icon_url := "https://cdn3.emoji.gg/emojis/9666-link.png" }
      image_url := l.image_url }

/-- Python truthiness of an optional string: None and "" are falsy. -/
def strTruthy : Option String → Bool
  | none => false
  | some s => s != ""

/-- The summary content line of send_summary_notification, with the
optional role mention prefix prepended when app_config.role_id is
truthy. -/
def summary_content (role_id : Option String) (target_url : String)
    (count : Nat) : String :=
  let base := "Found " ++ toString count ++
    " new listings. View on [SUUMO](" ++ target_url ++ ")"
  match role_id with
  | some rid => if rid = "" then base else "<@&" ++ rid ++ "> " ++ base
  | none => base

/-- AbstractHunter.send_summary_notification: the single payload it
constructs, with embeds for only the first 3 listings in order. -/
def send_summary_payload (role_id : Option String) (target_url : String)
    (listings : List ListingRecord) : Payload :=
  { content := summary_content role_id target_url listings.length
    embeds := (listings.take 3).map format_listing_message }

/-- AbstractHunter.announce_new_listings, modelled as the ordered list of
payloads it hands to send_notification: none for an empty list, one
individual single-embed payload per listing below the threshold of 3,
and exactly one summary payload otherwise. -/
def announce_payloads (role_id : Option String) (target_url : String)
    (new_listings : List ListingRecord) : List Payload :=
  if new_listings.length = 0 then []
  else if new_listings.length < 3 then
    new_listings.map
      (fun l => { content := "", embeds := [format_listing_message l] })
  else
    [send_summary_payload role_id target_url new_listings]

/-- The configuration surface the sender consumes (AppConfig). -/
structure SenderConfig where
  enable_notifications : Bool
  notification_url : Option String
  role_id : Option String
deriving DecidableEq

/-- The HTTP POST that send_notification issues.  `timeout := none`
records that the source calls requests.post(url, json=payload) WITHOUT
a timeout argument, so the attempt carries no explicit bound. -/
structure HttpRequest where
  url : String
  body : Payload
  timeout : Option Nat
deriving DecidableEq

def notification_request (url : String) (payload : Payload) : HttpRequest :=
  { url := url, body := payload, timeout := none }

/-- Behaviour of the network on one delivery attempt, supplied by the
environment. -/
inductive DeliveryOutcome where
  | response (status : Nat)
  | connectionFailure
  | timedOut
  | otherTransportError
deriving DecidableEq

/-- The requests exception classes distinguished by send_notification. -/
inductive RequestsError where
  | httpError (status : Nat)
  | connectionError
  | timeoutError
  | requestException
deriving DecidableEq

/-- requests.post followed by response.raise_for_status, which raises
HTTPError for any status of 400 or above. -/
def attempt_delivery (_req : HttpRequest) (outcome : DeliveryOutcome) :
    Except RequestsError Nat :=
  match outcome with
  | .response status =>
    if 400 ≤ status then .error (.httpError status) else .ok status
  | .connectionFailure => .error .connectionError
  | .timedOut => .error .timeoutError
  | .otherTransportError => .error .requestException

inductive SendResult where
  | sent (status : Nat)
  | failureLogged (e : RequestsError)
  | skippedDisabled
deriving DecidableEq

/-- AbstractHunter.send_notification.  The outer Except String is the
raise channel out of the method: each of the four except clauses
(HTTPError, ConnectionError, Timeout, RequestException) catches its
class and only logs, and the disabled / no-URL configuration is a
logged no-op, so every branch lands in Except.ok. -/
def send_notification (cfg : SenderConfig) (outcome : DeliveryOutcome)
    (payload : Payload) : Except String SendResult :=
  if cfg.enable_notifications && strTruthy cfg.notification_url then
    match
      attempt_delivery
        (notification_request (cfg.notification_url.getD "") payload)
        outcome
    with
    | .ok status => .ok (.sent status)
    | .error e => .ok (.failureLogged e)
  else
    .ok .skippedDisabled

/-- The loop of announce_new_listings sending each payload in turn; the
i-th send observes the i-th delivery outcome.  An uncaught exception
from one send would abort the remaining sends (the Except.error
short-circuit), mirroring Python exception propagation. -/
def sendAll (cfg : SenderConfig) (outs : Nat → DeliveryOutcome) :
    List Payload → Nat → Except String (List SendResult)
  | [], _ => .ok []
  | p :: ps, i =>
    match send_notification cfg (outs i) p with
    | .error e => .error e
    | .ok r =>
      match sendAll cfg outs ps (i + 1) with
      | .error e => .error e
      | .ok rs => .ok (r :: rs)

/-- The per-hunter mutable state the core methods touch:
self.seen_listings, the staged dict self.listings with the key for seen
entries, the list self.listings with the key for new entries, and the
on-disk file. -/
structure HunterState where
  seen_listings : Store
  staged : Store
  new_listings : List ListingRecord
  file : FileContent

/-- The for-loop of process_listings.  The very first statement of the
loop body evaluates the subscript access of the url key, which raises
KeyError when the key is absent; membership is then tested against
self.seen_listings only.  A new record is appended to the new-listings
list and staged into the pending merge dict; a seen record is only
counted for diagnostics. -/
def diff_loop (seen : Store) :
    List ListingRecord → List ListingRecord → Store →
    Except String (List ListingRecord × Store)
  | [], accNew, accStaged => .ok (accNew, accStaged)
  | l :: rest, accNew, accStaged =>
    match l.url with
    | none => .error "KeyError: url"
    | some u =>
      if seen.contains u then
        diff_loop seen rest accNew accStaged
      else
        diff_loop seen rest (accNew ++ [l]) (accStaged.insert u l)

/-- AbstractHunter.process_listings, threading the state explicitly.
An empty batch returns early touching nothing.  Otherwise: run the diff
loop; when any new listings exist, build and send the announcement
payloads; then save_seen_listings (merge write) and load_seen_listings
(reload self.seen_listings from the file just written; the storage
directory is modelled as writable here), and clear the new-listings
list.  The staged dict is never cleared by the source. -/
def process_listings (cfg : SenderConfig) (target_url : String)
    (outs : Nat → DeliveryOutcome) (st : HunterState)
    (scraped : List ListingRecord) :
    Except String (HunterState × List SendResult) :=
  if scraped.isEmpty then .ok (st, [])
  else
    match diff_loop st.seen_listings scraped st.new_listings st.staged with
    | .error e => .error e
    | .ok (newL, staged') =>
      let payloads :=
        if newL.isEmpty then []
        else announce_payloads cfg.role_id target_url newL
      match sendAll cfg outs payloads 0 with
      | .error e => .error e
      | .ok results =>
        let file' := save_seen_listings st.file staged'
        .ok
          ({ seen_listings := read_store_file file'
             staged := staged'
             new_listings := []
             file := file' }, results)

/-! Concrete sample data used by witnesses and counterexamples. -/

def recA : ListingRecord :=
  { url := some "a", price := some "1000万円" }

def recA2 : ListingRecord :=
  { url := some "a", price := some "1200万円" }

def recB : ListingRecord :=
  { url := some "b", price := some "2000万円" }

/-- A record with every key absent. -/
def recEmpty : ListingRecord := {}

def cfgOff : SenderConfig :=
  { enable_notifications := false, notification_url := none, role_id := none }

/-- A fresh hunter state: empty in-memory store, nothing staged, no file yet
(the state right after construction on a first run). -/
def st0 : HunterState :=
  { seen_listings := Store.empty
    staged := Store.empty
    new_listings := []
    file := .missing }

/-! ## Claim theorems -/

/-- C3: the batcher produces, for 0 new listings, no payload; for 1 or 2,
one payload per listing, each with exactly one embed built from that
listing and an empty content line; for 3 or more, exactly one summary
payload whose content line states the total count of new listings plus a
link and whose embeds are exactly the first 3 listings in scrape order. -/
theorem announce_payloads_policy (role : Option String) (tgt : String)
    (l1 l2 l3 : ListingRecord) (rest : List ListingRecord) :
    announce_payloads role tgt [] = []
    ∧ announce_payloads role tgt [l1] =
        [{ content := "", embeds := [format_listing_message l1] }]
    ∧ announce_payloads role tgt [l1, l2] =
        [{ content := "", embeds := [format_listing_message l1] },
         { content := "", embeds := [format_listing_message l2] }]
    ∧ announce_payloads role tgt (l1 :: l2 :: l3 :: rest) =
        [send_summary_payload role tgt (l1 :: l2 :: l3 :: rest)]
    ∧ send_summary_payload role tgt (l1 :: l2 :: l3 :: rest) =
        { content :=
            summary_content role tgt (l1 :: l2 :: l3 :: rest).length
          embeds :=
            [format_listing_message l1, format_listing_message l2,
             format_listing_message l3] } := by
  refine ⟨rfl, rfl, rfl, ?_, ?_⟩
  · have h0 : ¬ ((l1 :: l2 :: l3 :: rest).length = 0) := by
      simp [List.length_cons]
    have h3 : ¬ ((l1 :: l2 :: l3 :: rest).length < 3) := by
      simp only [List.length_cons]
      omega
    rw [announce_payloads, if_neg h0, if_neg h3]
  · rw [send_summary_payload]
    simp [List.take]

/-- C4 counterexample: the claim says a batch of exactly 1 new listing
produces 2 individual payloads; on the code a single-listing batch
produces exactly 1 payload. -/
theorem announce_single_payload_cex :
    (announce_payloads none "t" [recA]).length = 1
    ∧ ¬ ((announce_payloads none "t" [recA]).length = 2) := by
  exact ⟨rfl, by decide⟩

/-- C4 amended: batches of size 0, 1, 2, 3 and 4 produce, respectively:
0 payloads; 1 individual payload; 2 individual payloads; 1 summary
payload with 3 embeds; 1 summary payload with 3 embeds (not 4).  Each
list below gives the per-payload embed counts, so it fixes both the
number of payloads and the number of embeds in each. -/
theorem announce_threshold_amended (role : Option String) (tgt : String)
    (r1 r2 r3 r4 : ListingRecord) :
    (announce_payloads role tgt []).length = 0
    ∧ (announce_payloads role tgt [r1]).map
        (fun p => p.embeds.length) = [1]
    ∧ (announce_payloads role tgt [r1, r2]).map
        (fun p => p.embeds.length) = [1, 1]
    ∧ (announce_payloads role tgt [r1, r2, r3]).map
        (fun p => p.embeds.length) = [3]
    ∧ (announce_payloads role tgt [r1, r2, r3, r4]).map
        (fun p => p.embeds.length) = [3] :=
  ⟨rfl, rfl, rfl, rfl, rfl⟩

/-- C6 counterexample: the claim says load never raises for any missing,
unwritable or corrupt store-file state; with an unwritable storage
directory the code raises PermissionError from
ensure_storage_directory_exists before ever reading the file. -/
theorem load_unwritable_raises_cex :
    load_seen_listings false FileContent.missing =
      .error "PermissionError" := rfl

/-- C6 amended: load returns an empty store when the persisted file is
missing, and an empty store while reporting a decode error when the file
content is malformed JSON, completing without raising in those cases and
in the well-formed case; but when the storage directory is not writable,
load raises PermissionError instead of completing. -/
theorem load_fallbacks_amended :
    load_seen_listings true FileContent.missing = .ok (Store.empty, false)
    ∧ load_seen_listings true FileContent.corrupt = .ok (Store.empty, true)
    ∧ (∀ entries : Store,
        load_seen_listings true (FileContent.valid entries) =
          .ok (entries, false))
    ∧ (∀ file : FileContent,
        load_seen_listings false file = .error "PermissionError") :=
  ⟨rfl, rfl, fun _ => rfl, fun _ => rfl⟩

/-- C7 counterexample: the claim says every absent optional field renders
as the placeholder "Not Available"; on a record with all keys absent the
embed's title and image are null and the description renders the absent
fields as "None", not "Not Available". -/
theorem format_placeholder_cex :
    (format_listing_message recEmpty).map Embed.title = some none
    ∧ (format_listing_message recEmpty).map Embed.image_url = some none
    ∧ (format_listing_message recEmpty).map Embed.description =
        some ("\n            **Size:** None\n**Price per tsubo:** None" ++
          "\n**Building coverage ratio:** None\n**Floor area ratio:** None" ++
          "\n**Features:** None \n            ")
    ∧ ¬ ((format_listing_message recEmpty).map Embed.title =
          some (some "Not Available")) :=
  ⟨rfl, rfl, rfl, by decide⟩

/-- C7 amended: embed construction is a pure total mapping from a
ListingRecord to a fixed embed shape — it never raises and never omits a
field, and the field structure is the same regardless of which inputs
are present — but only the Access field substitutes the placeholder
"Not Available" when transportation is absent; every other absent field
flows through as null (title, url, image) or as the text "None" inside
the description line. -/
theorem format_fixed_shape_amended (l : ListingRecord) :
    format_listing_message l = some
      { title := l.price
        description := listing_description l
        url := l.url
        color := 4937567
        fields :=
          [{ name := "Access"
             value := l.transportation.getD "Not Available"
             inline := true }]
        author :=
          { name := "SUUMO"
            url := l.url
            icon_url := "https://cdn3.emoji.gg/emojis/9666-link.png" }
        image_url := l.image_url }
    ∧ listing_description
        { l with size := none, price_per_tsubo := none,
                 building_coverage := none, floor_area := none,
                 features := none } =
        ("\n            **Size:** None\n**Price per tsubo:** None" ++
         "\n**Building coverage ratio:** None\n**Floor area ratio:** None" ++
         "\n**Features:** None \n            ") :=
  ⟨rfl, rfl⟩

/-- C9 (code bug): the POST issued by send_notification carries no
timeout — the source calls requests.post(url, json=payload) with no
timeout argument, so the delivery attempt has no explicit bound and a
slow or unresponsive endpoint can block indefinitely, even though the
method catches a requests Timeout exception class that can then never
fire. -/
theorem notification_request_unbounded (url : String) (p : Payload) :
    (notification_request url p).timeout = none := rfl

/-- Reading back the file save_seen_listings just wrote yields exactly the
union of the previous on-disk entries with the staged entries. -/
lemma read_save (f : FileContent) (s : Store) :
    read_store_file (save_seen_listings f s) =
      Store.union (read_store_file f) s := rfl

/-- C1: save_seen_listings re-reads the on-disk store and writes back the
union keyed by URL with the in-memory staged entries taking precedence;
it never removes a key (every URL on disk before the persist is still
present after it), and persisting entry A from one store instance and
then entry B from another instance backed by the same file leaves a file
containing both A and B. -/
theorem merge_and_persist_preserves
    (f0 : FileContent) (staged : Store) (k j ka kb : String)
    (w v va vb : ListingRecord)
    (hk : read_store_file f0 k = some w)
    (hj : staged j = some v)
    (hne : ka ≠ kb) :
    (read_store_file (save_seen_listings f0 staged) k).isSome = true
    ∧ read_store_file (save_seen_listings f0 staged) j = some v
    ∧ read_store_file
        (save_seen_listings
          (save_seen_listings f0 (Store.insert Store.empty ka va))
          (Store.insert Store.empty kb vb)) ka = some va
    ∧ read_store_file
        (save_seen_listings
          (save_seen_listings f0 (Store.insert Store.empty ka va))
          (Store.insert Store.empty kb vb)) kb = some vb := by
  refine ⟨?_, ?_, ?_, ?_⟩
  · rw [read_save]
    unfold Store.union
    cases hs : staged k <;> simp [hs, hk]
  · rw [read_save]
    unfold Store.union
    rw [hj]
  · rw [read_save, read_save]
    unfold Store.union Store.insert Store.empty
    simp [hne]
  · rw [read_save]
    unfold Store.union Store.insert
    simp

def c1file : FileContent :=
  FileContent.valid (Store.insert Store.empty "x" recB)

def c1staged : Store := Store.insert Store.empty "y" recA

/-- C1 witness: the theorem instantiated at a one-entry file, a one-entry
staged dict, and the two-instance scenario with entries keyed "a", "b". -/
theorem merge_and_persist_preserves_witness :
    read_store_file c1file "x" = some recB
    ∧ c1staged "y" = some recA
    ∧ ("a" : String) ≠ "b"
    ∧ ((read_store_file (save_seen_listings c1file c1staged) "x").isSome = true
       ∧ read_store_file (save_seen_listings c1file c1staged) "y" = some recA
       ∧ read_store_file
           (save_seen_listings
             (save_seen_listings c1file (Store.insert Store.empty "a" recA))
             (Store.insert Store.empty "b" recB)) "a" = some recA
       ∧ read_store_file
           (save_seen_listings
             (save_seen_listings c1file (Store.insert Store.empty "a" recA))
             (Store.insert Store.empty "b" recB)) "b" = some recB) :=
  ⟨rfl, rfl, by decide,
   merge_and_persist_preserves c1file c1staged "x" "y" "a" "b" recB recA
     recA recB rfl rfl (by decide)⟩

/-- C10: within one batch, membership is tested only against the seen
store loaded at batch start, so a batch holding the same not-yet-seen
URL twice appends both occurrences to the new-listings list (both are
announced), while the staged dict keeps only the last occurrence. -/
theorem batch_duplicates_kept
    (st : HunterState) (u : String) (r1 r2 : ListingRecord)
    (role : Option String) (tgt : String)
    (h1 : r1.url = some u) (h2 : r2.url = some u)
    (hseen : st.seen_listings u = none) (hnew : st.new_listings = []) :
    diff_loop st.seen_listings [r1, r2] st.new_listings st.staged
      = .ok ([r1, r2], (st.staged.insert u r1).insert u r2)
    ∧ ((st.staged.insert u r1).insert u r2) u = some r2
    ∧ (announce_payloads role tgt [r1, r2]).map
        (fun p => p.embeds.length) = [1, 1] := by
  refine ⟨?_, ?_, rfl⟩
  · simp [diff_loop, h1, h2, Store.contains, hseen, hnew]
  · simp [Store.insert]

/-- C10 witness: two distinct records sharing the URL "a" against a fresh
state are both reported new; the staged dict maps "a" to the second. -/
theorem batch_duplicates_kept_witness :
    recA.url = some "a" ∧ recA2.url = some "a"
    ∧ st0.seen_listings "a" = none ∧ st0.new_listings = []
    ∧ (diff_loop st0.seen_listings [recA, recA2] st0.new_listings st0.staged
        = .ok ([recA, recA2], (st0.staged.insert "a" recA).insert "a" recA2)
       ∧ ((st0.staged.insert "a" recA).insert "a" recA2) "a" = some recA2
       ∧ (announce_payloads none "t" [recA, recA2]).map
           (fun p => p.embeds.length) = [1, 1]) :=
  ⟨rfl, rfl, rfl, rfl,
   batch_duplicates_kept st0 "a" recA recA2 none "t" rfl rfl rfl rfl⟩

/-- Every delivery outcome class lands in a caught branch: the sender
method never lets an exception escape. -/
lemma send_notification_never_raises (cfg : SenderConfig)
    (o : DeliveryOutcome) (p : Payload) :
    ∃ r, send_notification cfg o p = .ok r := by
  unfold send_notification
  by_cases hc : (cfg.enable_notifications && strTruthy cfg.notification_url) = true
  · rw [if_pos hc]
    cases h :
      attempt_delivery
        (notification_request (cfg.notification_url.getD "") p) o with
    | ok s => exact ⟨.sent s, rfl⟩
    | error e => exact ⟨.failureLogged e, rfl⟩
  · rw [if_neg hc]
    exact ⟨.skippedDisabled, rfl⟩

/-- The send loop attempts every payload exactly once, whatever each
attempt's outcome. -/
lemma sendAll_attempts_all (cfg : SenderConfig)
    (outs : Nat → DeliveryOutcome) :
    ∀ (ps : List Payload) (i : Nat),
      ∃ rs, sendAll cfg outs ps i = .ok rs ∧ rs.length = ps.length := by
  intro ps
  induction ps with
  | nil => exact fun i => ⟨[], rfl, rfl⟩
  | cons p ps ih =>
    intro i
    obtain ⟨r, hr⟩ := send_notification_never_raises cfg (outs i) p
    obtain ⟨rs, hrs, hlen⟩ := ih (i + 1)
    exact ⟨r :: rs, by simp only [sendAll, hr, hrs], by simp [hlen]⟩

/-- C5: for every payload and every delivery outcome class (timeout,
connection failure, non-2xx response, other transport error),
send_notification returns without raising; a failure for one payload
never prevents the attempt for the next payload of the same batch (the
loop attempts every payload); and the merge-and-persist of the store
inside process_listings yields the same resulting state whatever the
delivery outcomes were. -/
theorem send_failures_isolated
    (cfg cfg2 : SenderConfig) (o : DeliveryOutcome) (p : Payload)
    (outs o1 o2 : Nat → DeliveryOutcome) (ps : List Payload) (i : Nat)
    (tgt : String) (st : HunterState) (batch : List ListingRecord) :
    (∃ r, send_notification cfg o p = .ok r)
    ∧ (∃ rs, sendAll cfg outs ps i = .ok rs ∧ rs.length = ps.length)
    ∧ (process_listings cfg2 tgt o1 st batch).map Prod.fst
        = (process_listings cfg2 tgt o2 st batch).map Prod.fst := by
  refine ⟨send_notification_never_raises cfg o p,
          sendAll_attempts_all cfg outs ps i, ?_⟩
  unfold process_listings
  by_cases hb : batch.isEmpty = true
  · rw [if_pos hb, if_pos hb]
  · rw [if_neg hb, if_neg hb]
    cases hd : diff_loop st.seen_listings batch st.new_listings st.staged with
    | error e => rfl
    | ok pr =>
      obtain ⟨newL, staged'⟩ := pr
      obtain ⟨rs1, hs1, _⟩ :=
        sendAll_attempts_all cfg2 o1
          (if newL.isEmpty then []
           else announce_payloads cfg2.role_id tgt newL) 0
      obtain ⟨rs2, hs2, _⟩ :=
        sendAll_attempts_all cfg2 o2
          (if newL.isEmpty then []
           else announce_payloads cfg2.role_id tgt newL) 0
      simp only [hs1, hs2, Except.map]

/-- Reaching a record whose url key is absent raises KeyError out of the
diff loop, whatever came before it in the batch. -/
lemma diff_loop_missing_url (seen : Store) (r : ListingRecord)
    (post : List ListingRecord) (hr : r.url = none) :
    ∀ (pre : List ListingRecord) (accN : List ListingRecord) (accS : Store),
      (∀ x ∈ pre, x.url.isSome = true) →
      diff_loop seen (pre ++ r :: post) accN accS
        = .error "KeyError: url" := by
  intro pre
  induction pre with
  | nil => intro accN accS _; simp [diff_loop, hr]
  | cons x xs ih =>
    intro accN accS hpre
    have hx : x.url.isSome = true := hpre x (by simp)
    obtain ⟨u, hu⟩ := Option.isSome_iff_exists.mp hx
    have hxs : ∀ y ∈ xs, y.url.isSome = true :=
      fun y hy => hpre y (by simp [hy])
    simp only [List.cons_append, diff_loop, hu]
    by_cases hc : seen.contains u = true
    · rw [if_pos hc]; exact ih _ _ hxs
    · rw [if_neg hc]; exact ih _ _ hxs

/-- C8 amended: a record lacking its identifying URL makes
process_listings raise KeyError at that record, aborting the whole batch
(no skip-and-log, and the remaining listings are NOT processed); a
record lacking its price does not fail embed construction at all — the
embed is built with a null title and the listing is announced. -/
theorem missing_key_amended
    (cfg : SenderConfig) (tgt : String) (outs : Nat → DeliveryOutcome)
    (st : HunterState) (pre post : List ListingRecord)
    (r l : ListingRecord)
    (hr : r.url = none) (hpre : ∀ x ∈ pre, x.url.isSome = true)
    (hl : l.price = none) :
    process_listings cfg tgt outs st (pre ++ r :: post)
      = .error "KeyError: url"
    ∧ (format_listing_message l).map Embed.title = some none
    ∧ (format_listing_message l).isSome = true := by
  refine ⟨?_, ?_, rfl⟩
  · have hne : ¬ ((pre ++ r :: post).isEmpty = true) := by
      simp [List.isEmpty_iff]
    rw [process_listings, if_neg hne,
        diff_loop_missing_url st.seen_listings r post hr pre
          st.new_listings st.staged hpre]
  · simp [format_listing_message, hl]

/-- C8 counterexample: the claim says a record lacking its URL is skipped
with a log entry while the rest of the batch is still processed and
announced; on the code the whole three-record batch aborts with KeyError
and nothing is announced or persisted. -/
theorem missing_url_aborts_batch_cex :
    process_listings cfgOff "t" (fun _ => DeliveryOutcome.timedOut) st0
      [recA, recEmpty, recB] = .error "KeyError: url" := rfl

/-- C8 witness: the amended theorem at a batch [recA, recEmpty, recB]
whose middle record lacks the url key, and at a priceless record. -/
theorem missing_key_amended_witness :
    recEmpty.url = none ∧ recEmpty.price = none
    ∧ (process_listings cfgOff "t" (fun _ => DeliveryOutcome.timedOut) st0
         ([recA] ++ recEmpty :: [recB]) = .error "KeyError: url"
       ∧ (format_listing_message recEmpty).map Embed.title = some none
       ∧ (format_listing_message recEmpty).isSome = true) :=
  ⟨rfl, rfl,
   missing_key_amended cfgOff "t" (fun _ => DeliveryOutcome.timedOut) st0
     [recA] [recB] recEmpty recEmpty rfl (by decide) rfl⟩

lemma store_union_isSome (a b : Store) (q : String) :
    (Store.union a b q).isSome = ((a q).isSome || (b q).isSome) := by
  unfold Store.union
  cases h : b q <;> simp [h]

lemma store_insert_isSome_of (s : Store) (k : String) (v : ListingRecord)
    (q : String) (h : (s q).isSome = true) :
    ((s.insert k v) q).isSome = true := by
  unfold Store.insert
  by_cases hq : q = k <;> simp [hq, h]

/-- Entries already staged stay staged through the diff loop. -/
lemma diff_loop_staged_mono (seen : Store) :
    ∀ (bs accN : List ListingRecord) (accS : Store)
      (N : List ListingRecord) (S : Store),
      diff_loop seen bs accN accS = .ok (N, S) →
      ∀ q, (accS q).isSome = true → (S q).isSome = true := by
  intro bs
  induction bs with
  | nil =>
    intro accN accS N S h q hq
    simp only [diff_loop, Except.ok.injEq, Prod.mk.injEq] at h
    exact h.2 ▸ hq
  | cons l rest ih =>
    intro accN accS N S h q hq
    cases hu : l.url with
    | none => simp [diff_loop, hu] at h
    | some u =>
      simp only [diff_loop, hu] at h
      by_cases hc : seen.contains u = true
      · rw [if_pos hc] at h
        exact ih _ _ _ _ h q hq
      · rw [if_neg hc] at h
        exact ih _ _ _ _ h q (store_insert_isSome_of accS u l q hq)

/-- After a successful diff pass, every record of the batch has a url
present either in the seen store consulted or in the staged dict the
pass produced. -/
lemma diff_loop_covers (seen : Store) :
    ∀ (bs accN : List ListingRecord) (accS : Store)
      (N : List ListingRecord) (S : Store),
      diff_loop seen bs accN accS = .ok (N, S) →
      ∀ r ∈ bs, ∃ u, r.url = some u ∧
        ((seen u).isSome = true ∨ (S u).isSome = true) := by
  intro bs
  induction bs with
  | nil => intro accN accS N S _ r hr; exact absurd hr (by simp)
  | cons l rest ih =>
    intro accN accS N S h r hr
    cases hu : l.url with
    | none => simp [diff_loop, hu] at h
    | some u =>
      simp only [diff_loop, hu] at h
      rcases List.mem_cons.mp hr with hrl | hrr
      · subst hrl
        refine ⟨u, hu, ?_⟩
        by_cases hc : seen.contains u = true
        · exact Or.inl hc
        · rw [if_neg hc] at h
          exact Or.inr
            (diff_loop_staged_mono seen rest _ _ _ _ h u
              (by simp [Store.insert]))
      · by_cases hc : seen.contains u = true
        · rw [if_pos hc] at h
          exact ih _ _ _ _ h r hrr
        · rw [if_neg hc] at h
          exact ih _ _ _ _ h r hrr

/-- When every record of the batch is already in the consulted seen
store, the diff loop reports nothing new and stages nothing. -/
lemma diff_loop_all_seen (seen : Store) :
    ∀ (bs accN : List ListingRecord) (accS : Store),
      (∀ r ∈ bs, ∃ u, r.url = some u ∧ seen.contains u = true) →
      diff_loop seen bs accN accS = .ok (accN, accS) := by
  intro bs
  induction bs with
  | nil => intro accN accS _; rfl
  | cons l rest ih =>
    intro accN accS hall
    obtain ⟨u, hu, hc⟩ := hall l (by simp)
    simp only [diff_loop, hu, if_pos hc]
    exact ih _ _ (fun r hr => hall r (by simp [hr]))

/-- C2: reconciliation is idempotent across cycles.  From any state whose
in-memory seen store is what load_seen_listings read from the file (the
only way the source ever populates it), a successful process_listings
pass persists and reloads; running the diff on the same batch against
the resulting state yields zero new listings, and a full second
process_listings pass produces no payloads at all. -/
theorem reconcile_idempotent
    (cfg : SenderConfig) (tgt : String) (o1 o2 : Nat → DeliveryOutcome)
    (st st1 : HunterState) (rs : List SendResult)
    (batch : List ListingRecord)
    (hcons : st.seen_listings = read_store_file st.file)
    (h1 : process_listings cfg tgt o1 st batch = .ok (st1, rs)) :
    diff_loop st1.seen_listings batch [] st1.staged = .ok ([], st1.staged)
    ∧ (process_listings cfg tgt o2 st1 batch).map Prod.snd
        = Except.ok [] := by
  by_cases hb : batch.isEmpty = true
  · rw [process_listings, if_pos hb] at h1
    simp only [Except.ok.injEq, Prod.mk.injEq] at h1
    obtain ⟨hst, hrs⟩ := h1
    subst hst
    have hnil : batch = [] := List.isEmpty_iff.mp hb
    subst hnil
    exact ⟨rfl, by rw [process_listings, if_pos hb]; rfl⟩
  · rw [process_listings, if_neg hb] at h1
    cases hd : diff_loop st.seen_listings batch st.new_listings st.staged with
    | error e => rw [hd] at h1; exact absurd h1 (by simp)
    | ok pr =>
      obtain ⟨newL, staged'⟩ := pr
      rw [hd] at h1
      obtain ⟨rs1, hs1, _⟩ :=
        sendAll_attempts_all cfg o1
          (if newL.isEmpty then []
           else announce_payloads cfg.role_id tgt newL) 0
      simp only [hs1] at h1
      simp only [Except.ok.injEq, Prod.mk.injEq] at h1
      obtain ⟨hst, hrs⟩ := h1
      subst hst
      have hcov :=
        diff_loop_covers st.seen_listings batch st.new_listings st.staged
          newL staged' hd
      have hall : ∀ r ∈ batch, ∃ u, r.url = some u ∧
          Store.contains
            (read_store_file (save_seen_listings st.file staged')) u
            = true := by
        intro r hr
        obtain ⟨u, hu, hor⟩ := hcov r hr
        refine ⟨u, hu, ?_⟩
        show (Store.union (read_store_file st.file) staged' u).isSome = true
        rw [store_union_isSome, ← hcons]
        rcases hor with h | h <;> simp [h]
      refine ⟨diff_loop_all_seen _ batch [] staged' hall, ?_⟩
      rw [process_listings, if_neg hb,
          diff_loop_all_seen _ batch [] staged' hall]
      rfl

def c2staged : Store := Store.insert Store.empty "a" recA

def c2file : FileContent :=
  FileContent.valid (Store.union Store.empty c2staged)

/-- The state a first process_listings pass over [recA] produces from the
fresh state st0. -/
def c2st1 : HunterState :=
  { seen_listings := Store.union Store.empty c2staged
    staged := c2staged
    new_listings := []
    file := c2file }

/-- C2 witness: a fresh store, a one-record batch; after the first pass
the very same batch reconciles to zero new listings and a second pass
emits no payloads. -/
theorem reconcile_idempotent_witness :
    st0.seen_listings = read_store_file st0.file
    ∧ process_listings cfgOff "t" (fun _ => DeliveryOutcome.timedOut) st0
        [recA] = .ok (c2st1, [SendResult.skippedDisabled])
    ∧ (diff_loop c2st1.seen_listings [recA] [] c2st1.staged
         = .ok ([], c2st1.staged)
       ∧ (process_listings cfgOff "t"
            (fun _ => DeliveryOutcome.connectionFailure) c2st1
            [recA]).map Prod.snd = Except.ok []) :=
  ⟨rfl, rfl,
   reconcile_idempotent cfgOff "t" (fun _ => DeliveryOutcome.timedOut)
     (fun _ => DeliveryOutcome.connectionFailure) st0 c2st1
     [SendResult.skippedDisabled] [recA] rfl rfl⟩

end HomeHunter
